import Mathlib

/-
Verification development for the openmc_dagmc_wrapper tally compiler and
model assembler (src/openmc_dagmc_wrapper/Tally.py and
src/openmc_dagmc_wrapper/neutronics_model.py).

The Python sources are shallowly embedded as executable Lean definitions.
External collaborators (the openmc library, the transport engine, the
filesystem) are modelled by opaque parameters or by the identifying data
of the call: a dose-coefficient table is identified by the (particle,
geometry) pair passed to openmc.data.dose_coefficients, the bounding-box
engine is a function argument, and file existence is a Boolean predicate
argument.

Python failures are modelled with Except: an AttributeError for a read of
a never-assigned attribute, an UnboundLocalError for a read of a local
that no branch assigned, a ValueError / TypeError / FileNotFoundError for
the corresponding raises.
-/

/-- Python exception kinds that the embedded code can raise. -/
inductive PyErr where
  | attributeError (attr : String)
  | unboundLocalError (var : String)
  | valueError (msg : String)
  | typeError (msg : String)
  | fileNotFoundError (msg : String)
deriving DecidableEq

/-- Value of a CellTally target argument: Python None, an int cell id, or a
material-name string. -/
inductive PyVal where
  | none
  | int (n : Int)
  | str (s : String)
deriving DecidableEq

/-- Python str() of a target value. -/
def pyStr : PyVal → String
  | PyVal.none => "None"
  | PyVal.int n => toString n
  | PyVal.str s => s

/-- An openmc material handle: its name (the material tag) plus an identity
distinguishing two materials that share a name. -/
structure Material where
  name : String
  mid : Nat
deriving DecidableEq

/-- A dose-coefficient table as returned by the external
openmc.data.dose_coefficients call, identified by the (particle, geometry)
parameters of the call. -/
structure DoseTable where
  particle : String
  geometry : String
deriving DecidableEq

/-- The external openmc.data.dose_coefficients lookup: the table is a fixed
constant identified by its parameters. -/
def doseCoefficients (particle : String) (geometry : String) : DoseTable :=
  { particle := particle, geometry := geometry }

/-- Energy bin edges of an EnergyFilter: either explicit edges in eV, or an
externally supplied named group structure (openmc.mgxs.GROUP_STRUCTURES). -/
inductive EnergyBins where
  | explicitBins (edges : List Nat)
  | groupStructure (tag : String)
deriving DecidableEq

/-- An unstructured (tet) mesh: file reference plus the backend library tag. -/
structure UMesh where
  filename : String
  library : String
deriving DecidableEq

/-- An openmc.RegularMesh: id, name, per-axis dimensions and corner vectors
(coordinates modelled as exact rationals). -/
structure RegularMesh where
  mesh_id : Nat
  name : String
  dimension : List Nat
  lower_left : List Rat
  upper_right : List Rat
deriving DecidableEq

/-- A tally filter, one constructor per openmc filter class used by the
sources. -/
inductive TFilter where
  | particleF (species : List String)
  | energyF (bins : EnergyBins)
  | energyFunctionF (table : DoseTable)
  | materialF (mat : Material)
  | cellF (cellId : Int)
  | meshF (mesh : RegularMesh)
  | meshU (mesh : UMesh)
deriving DecidableEq

/-- A compiled tally descriptor as accumulated by the assembler:
name, scores list, ordered filter list. -/
structure Tally where
  name : String
  scores : List String
  filters : List TFilter
deriving DecidableEq

/-- Python's str.endswith on the underlying character sequences. -/
def pyEndsWith (s : String) (sfx : String) : Bool :=
  List.isSuffixOf sfx.data s.data

/- ===== Tally.py : CellTally ===== -/

/-- Attribute state of a CellTally object right after the assignments of
Tally.py lines 26-28. Line 27 of the source reads `self.targer = target`,
so the attribute named `target` is never assigned by the constructor:
`target = none` below models the absent attribute (while `PyVal.none`
models an attribute holding the Python value None). -/
structure CellTallyState where
  odw_score : String
  targer : PyVal
  materials : Option (List Material)
  target : Option PyVal
deriving DecidableEq

/-- Read of the attribute `self.target`: an AttributeError when the
attribute was never assigned. -/
def getTarget (st : CellTallyState) : Except PyErr PyVal :=
  match st.target with
  | Option.some v => Except.ok v
  | Option.none => Except.error (PyErr.attributeError "target")

/-- The flux_scores list of CellTally.set_score (Tally.py lines 35-39). -/
def flux_scores : List String :=
  ["neutron_fast_flux", "photon_fast_flux",
   "neutron_spectra", "photon_spectra",
   "neutron_effective_dose", "photon_effective_dose"]

/-- CellTally.set_score (Tally.py lines 34-46): the value assigned to
self.scores. -/
def set_score (odw_score : String) : String :=
  if odw_score = "TBR" then "(n,Xt)"
  else if odw_score ∈ flux_scores then "flux"
  else odw_score

/-- CellTally.set_name (Tally.py lines 48-52): the value assigned to
self.name, reading `self.target` (line 49). -/
def set_name (st : CellTallyState) : Except PyErr String :=
  match getTarget st with
  | Except.error e => Except.error e
  | Except.ok t =>
    match t with
    | PyVal.none => Except.ok st.odw_score
    | v => Except.ok (pyStr v ++ "_" ++ st.odw_score)

/-- The material-lookup loop of CellTally.set_filter (Tally.py lines 66-68):
the loop overwrites on every name match, so the last match wins. -/
def lastMatch (nm : String) (mats : List Material) : Option Material :=
  List.foldl (fun acc m => if m.name = nm then Option.some m else acc)
    Option.none mats

/-- The additional_filters chain of CellTally.set_filter
(Tally.py lines 72-98). The photon_effective_dose branch (lines 94-98)
constructs its EnergyFunctionFilter from energy_bins_n and dose_coeffs_n,
the neutron dose table of lines 55-58. -/
def additionalFilters (odw_score : String) : List TFilter :=
  if odw_score = "neutron_fast_flux" then
    [TFilter.particleF ["neutron"],
     TFilter.energyF (EnergyBins.explicitBins [1000000, 1000000000])]
  else if odw_score = "photon_fast_flux" then
    [TFilter.particleF ["photon"],
     TFilter.energyF (EnergyBins.explicitBins [1000000, 1000000000])]
  else if odw_score = "neutron_spectra" then
    [TFilter.particleF ["neutron"],
     TFilter.energyF (EnergyBins.groupStructure "CCFE-709")]
  else if odw_score = "photon_spectra" then
    [TFilter.particleF ["photon"],
     TFilter.energyF (EnergyBins.groupStructure "CCFE-709")]
  else if odw_score = "neutron_effective_dose" then
    [TFilter.particleF ["neutron"],
     TFilter.energyFunctionF (doseCoefficients "neutron" "ISO")]
  else if odw_score = "photon_effective_dose" then
    [TFilter.particleF ["photon"],
     TFilter.energyFunctionF (doseCoefficients "neutron" "ISO")]
  else []

/-- CellTally.set_filter (Tally.py lines 54-100). Line 65 performs the first
read of `self.target`. When the target is a string, line 66 reads
`self.materials.materials` (an AttributeError when self.materials is None).
When no branch of lines 65-70 assigns tally_filter, line 100 reads an
unbound local. -/
def set_filter (st : CellTallyState) : Except PyErr (List TFilter) :=
  match getTarget st with
  | Except.error e => Except.error e
  | Except.ok t =>
    let tally_filter : Except PyErr (Option TFilter) :=
      match t with
      | PyVal.str nm =>
        match st.materials with
        | Option.none => Except.error (PyErr.attributeError "materials")
        | Option.some mats =>
          Except.ok (Option.map TFilter.materialF (lastMatch nm mats))
      | PyVal.int n => Except.ok (Option.some (TFilter.cellF n))
      | PyVal.none => Except.ok Option.none
    match tally_filter with
    | Except.error e => Except.error e
    | Except.ok tf =>
      match tf with
      | Option.some f => Except.ok (f :: additionalFilters st.odw_score)
      | Option.none => Except.error (PyErr.unboundLocalError "tally_filter")

/-- The descriptor a successful CellTally construction would produce
(the source assigns self.scores a single string). -/
structure CellTallyDescriptor where
  name : String
  scores : String
  filters : List TFilter
deriving DecidableEq

/-- CellTally.__init__ (Tally.py lines 25-32): record the attributes
(line 27 assigns `self.targer`, never `self.target`), then run set_score,
set_name and set_filter in order. -/
def cellTallyInit (odw_score : String) (target : PyVal)
    (materials : Option (List Material)) : Except PyErr CellTallyDescriptor :=
  let st : CellTallyState :=
    { odw_score := odw_score, targer := target, materials := materials,
      target := Option.none }
  let scoresVal := set_score st.odw_score
  match set_name st with
  | Except.error e => Except.error e
  | Except.ok nameVal =>
    match set_filter st with
    | Except.error e => Except.error e
    | Except.ok filtersVal =>
      Except.ok { name := nameVal, scores := scoresVal, filters := filtersVal }

/- ===== Tally.py : TetMeshTally ===== -/

/-- TetMeshTally.create_unstructured_mesh (Tally.py lines 121-135):
the backend library tag from the filename extension. -/
def create_unstructured_mesh (filename : String) : Except PyErr UMesh :=
  if pyEndsWith filename ".exo" then
    Except.ok { filename := filename, library := "libmesh" }
  else if pyEndsWith filename ".h5m" then
    Except.ok { filename := filename, library := "moab" }
  else
    Except.error (PyErr.valueError
      "only h5m or exo files are accepted as valid filename values")

/-- TetMeshTally.__init__ (Tally.py lines 112-119): the mesh is created
first; on a bad extension the constructor raises and no descriptor is
produced. -/
def tetMeshTallyInit (odw_score : String) (filename : String) :
    Except PyErr Tally :=
  match create_unstructured_mesh filename with
  | Except.error e => Except.error e
  | Except.ok umesh =>
    Except.ok { name := odw_score ++ "_on_3D_u_mesh", scores := [odw_score],
                filters := [TFilter.meshU umesh] }

/-- Documented failure kinds of the spec's error-handling design
(ValidationError, TypeKindError, NotFoundError), as opposed to incidental
attribute / unbound-local failures. Modelled from the spec: the spec's
error taxonomy has no counterpart in the source for the lookup-miss path. -/
def isDocumentedFailure : PyErr → Bool
  | PyErr.valueError _ => true
  | PyErr.typeError _ => true
  | PyErr.fileNotFoundError _ => true
  | PyErr.attributeError _ => false
  | PyErr.unboundLocalError _ => false

/- ===== neutronics_model.py : NeutronicsModel ===== -/

/-- A 3-vector of exact coordinates. -/
abbrev Vec3 : Type := Rat × Rat × Rat

/-- List form of a corner vector, as assigned to RegularMesh bounds. -/
def vecToList (v : Vec3) : List Rat :=
  [v.1, v.2.1, v.2.2]

/-- The run settings assembled by export_xml (lines 456-465). Line 463 reads
settings.source from self.source, not from the per-call source argument. -/
structure SettingsS where
  batches : Nat
  inactive : Nat
  particles : Nat
  run_mode : String
  photon_transport : Bool
  source : Nat
  max_lost_particles : Option Nat
deriving DecidableEq

/-- The openmc.model.Model aggregate handed over on line 716: geometry,
materials, settings and the ordered tally sequence. -/
structure ModelResult where
  geom : String
  mats : List Material
  settings : SettingsS
  tallies : List Tally
deriving DecidableEq

/-- Constructor-level configuration of a NeutronicsModel
(neutronics_model.py lines 78-128). The materials dictionary is modelled by
its created openmc materials in insertion order (create_openmc_materials,
lines 277-305, produces one material per dict entry, named after the tag);
the source is an opaque handle. -/
structure NMConfig where
  h5m_filename : String
  source : Nat
  materials : List Material
  cell_tallies : Option (List String)
  tet_mesh_filename : Option String
  mesh_tally_2d : Option (List String)
  mesh_tally_3d : Option (List String)
  mesh_tally_tet : Option (List String)
  mesh_2d_resolution : Nat × Nat
  mesh_3d_resolution : Nat × Nat × Nat
  mesh_2d_corners : Option (Vec3 × Vec3)
  mesh_3d_corners : Option (Vec3 × Vec3)
  photon_transport : Bool
  bounding_box : Option (Vec3 × Vec3)
deriving DecidableEq

/-- Mutable instance state of a NeutronicsModel: the configuration
attributes plus self.tallies, self.model (lines 121-124) and the
bounding-box cache (line 128). -/
structure NMState where
  cfg : NMConfig
  tallies : Option (List Tally)
  bounding_box : Option (Vec3 × Vec3)
  model : Option ModelResult
deriving DecidableEq

/-- The cell_tallies property setter check (lines 169-189): every entry must
be one of the fixed keywords or a key of the external reaction catalogs
(REACTION_MT / REACTION_NAME), supplied here as reactionKeys. -/
def cell_tallies_valid (reactionKeys : List String)
    (v : Option (List String)) : Bool :=
  match v with
  | Option.none => true
  | Option.some l =>
    l.all (fun e =>
      List.contains
        (["TBR", "heating", "flux", "spectra", "absorption", "effective_dose"]
          ++ reactionKeys) e)

/-- Truthiness of the expression `Path(f).is_file` at
neutronics_model.py line 310: the source omits the call parentheses, so the
expression is the bound method object, which is truthy regardless of
whether the file exists. -/
def isFileMethodTruthy (_fe : String → Bool) (_f : String) : Bool := true

/-- NeutronicsModel.find_bounding_box (lines 307-349): guard on line 310,
then a synchronous round-trip into the external engine (openmc.lib, modelled
by the engine argument) returning its global bounding box. -/
def find_bounding_box (engine : String → Vec3 × Vec3) (fe : String → Bool)
    (cfg : NMConfig) : Except PyErr (Vec3 × Vec3) :=
  if !(isFileMethodTruthy fe cfg.h5m_filename) then
    Except.error (PyErr.fileNotFoundError
      ("h5m file with filename " ++ cfg.h5m_filename ++ " not found"))
  else
    Except.ok (engine cfg.h5m_filename)

/-- The lazily cached bounding box used by the mesh sections
(lines 497-506 and 577-580): use the cache when set, otherwise call
find_bounding_box and store the result in self.bounding_box. -/
def cachedBoundingBox (cfg : NMConfig) (engine : String → Vec3 × Vec3)
    (fe : String → Bool) (bbCache : Option (Vec3 × Vec3)) :
    Except PyErr ((Vec3 × Vec3) × Option (Vec3 × Vec3)) :=
  match bbCache with
  | Option.some bb => Except.ok (bb, Option.some bb)
  | Option.none =>
    match find_bounding_box engine fe cfg with
    | Except.error e => Except.error e
    | Except.ok bb => Except.ok (bb, Option.some bb)

/-- The tet-mesh tally section of export_xml (lines 470-492): choose the
backend from the extension of self.tet_mesh_filename, then iterate
self.mesh_tally_tet (a TypeError when that attribute is None, line 486). -/
def tetSection (cfg : NMConfig) : Except PyErr (List Tally) :=
  match cfg.tet_mesh_filename with
  | Option.none => Except.ok []
  | Option.some fn =>
    let mk : String → Except PyErr (List Tally) := fun lib =>
      match cfg.mesh_tally_tet with
      | Option.none =>
        Except.error (PyErr.typeError "NoneType object is not iterable")
      | Option.some mtt =>
        Except.ok (mtt.map (fun s =>
          { name := s ++ "_on_3D_u_mesh", scores := [s],
            filters := [TFilter.meshU { filename := fn, library := lib }] }))
    if pyEndsWith fn ".exo" then mk "libmesh"
    else if pyEndsWith fn ".h5m" then mk "moab"
    else Except.error (PyErr.valueError
      "only h5m or exo files are accepted as valid tet_mesh_filename values")

/-- One iteration of the 3-D mesh tally loop (lines 508-549): the
effective_dose entry yields a neutron dose tally plus, when photon transport
is on, a photon dose tally; every other entry yields one mesh tally. -/
def mesh3dTallyFor (mesh_xyz : RegularMesh) (photonTransport : Bool)
    (standard_tally : String) : List Tally :=
  if standard_tally = "effective_dose" then
    [{ name := standard_tally ++ "_neutron_on_3D_mesh", scores := ["flux"],
       filters := [TFilter.meshF mesh_xyz, TFilter.particleF ["neutron"],
                   TFilter.energyFunctionF (doseCoefficients "neutron" "ISO")] }]
    ++ (if photonTransport then
          [{ name := standard_tally ++ "_photon_on_3D_mesh", scores := ["flux"],
             filters := [TFilter.meshF mesh_xyz, TFilter.particleF ["photon"],
                         TFilter.energyFunctionF (doseCoefficients "photon" "ISO")] }]
        else [])
  else
    [{ name := standard_tally ++ "_on_3D_mesh", scores := [standard_tally],
       filters := [TFilter.meshF mesh_xyz] }]

/-- The 3-D mesh tally section of export_xml (lines 494-549). -/
def mesh3dSection (cfg : NMConfig) (bbCache : Option (Vec3 × Vec3))
    (engine : String → Vec3 × Vec3) (fe : String → Bool) :
    Except PyErr (List Tally × Option (Vec3 × Vec3)) :=
  match cfg.mesh_tally_3d with
  | Option.none => Except.ok ([], bbCache)
  | Option.some mt3 =>
    let dims : List Nat :=
      [cfg.mesh_3d_resolution.1, cfg.mesh_3d_resolution.2.1,
       cfg.mesh_3d_resolution.2.2]
    match cfg.mesh_3d_corners with
    | Option.none =>
      match cachedBoundingBox cfg engine fe bbCache with
      | Except.error e => Except.error e
      | Except.ok (bb, bbCache2) =>
        let mesh_xyz : RegularMesh :=
          { mesh_id := 1, name := "3d_mesh", dimension := dims,
            lower_left := vecToList bb.1, upper_right := vecToList bb.2 }
        Except.ok
          (List.foldr (fun s acc => mesh3dTallyFor mesh_xyz cfg.photon_transport s ++ acc)
            [] mt3, bbCache2)
    | Option.some c =>
      let mesh_xyz : RegularMesh :=
        { mesh_id := 1, name := "3d_mesh", dimension := dims,
          lower_left := vecToList c.1, upper_right := vecToList c.2 }
      Except.ok
        (List.foldr (fun s acc => mesh3dTallyFor mesh_xyz cfg.photon_transport s ++ acc)
          [] mt3, bbCache)

/-- The xz-plane mesh of the 2-D section when no corners were supplied
(lines 555-561 and 582-592): dimension [width, 1, height]; x and z bounds
from the bounding box, y bounds fixed to (-1, 1). -/
def mesh2d_xz (res : Nat × Nat) (bb : Vec3 × Vec3) : RegularMesh :=
  { mesh_id := 2, name := "2d_mesh_xz",
    dimension := [res.2, 1, res.1],
    lower_left := [bb.1.1, -1, bb.1.2.2],
    upper_right := [bb.2.1, 1, bb.2.2.2] }

/-- The xy-plane mesh when no corners were supplied (lines 563-568 and
594-604): dimension [width, height, 1]; x and y bounds from the bounding
box, z bounds fixed to (-1, 1). -/
def mesh2d_xy (res : Nat × Nat) (bb : Vec3 × Vec3) : RegularMesh :=
  { mesh_id := 3, name := "2d_mesh_xy",
    dimension := [res.2, res.1, 1],
    lower_left := [bb.1.1, bb.1.2.1, -1],
    upper_right := [bb.2.1, bb.2.2.1, 1] }

/-- The yz-plane mesh when no corners were supplied (lines 570-575 and
606-616): dimension [1, width, height]; y and z bounds from the bounding
box, x bounds fixed to (-1, 1). -/
def mesh2d_yz (res : Nat × Nat) (bb : Vec3 × Vec3) : RegularMesh :=
  { mesh_id := 4, name := "2d_mesh_yz",
    dimension := [1, res.2, res.1],
    lower_left := [-1, bb.1.2.1, bb.1.2.2],
    upper_right := [1, bb.2.2.1, bb.2.2.2] }

/-- A 2-D plane mesh in the explicit-corners branch (lines 618-626): all
three planes take the supplied corners verbatim. -/
def meshWithCorners (i : Nat) (nm : String) (dims : List Nat)
    (c : Vec3 × Vec3) : RegularMesh :=
  { mesh_id := i, name := nm, dimension := dims,
    lower_left := vecToList c.1, upper_right := vecToList c.2 }

/-- The 2-D mesh tally loop (lines 628-639): per requested score, one tally
per plane in the order xz, xy, yz. -/
def mesh2dTallies (mt2 : List String) (mxz mxy myz : RegularMesh) :
    List Tally :=
  List.foldr
    (fun s acc =>
      [{ name := s ++ "_on_2D_mesh_xz", scores := [s],
         filters := [TFilter.meshF mxz] },
       { name := s ++ "_on_2D_mesh_xy", scores := [s],
         filters := [TFilter.meshF mxy] },
       { name := s ++ "_on_2D_mesh_yz", scores := [s],
         filters := [TFilter.meshF myz] }] ++ acc)
    [] mt2

/-- The 2-D mesh tally section of export_xml (lines 552-639). -/
def mesh2dSection (cfg : NMConfig) (bbCache : Option (Vec3 × Vec3))
    (engine : String → Vec3 × Vec3) (fe : String → Bool) :
    Except PyErr (List Tally × Option (Vec3 × Vec3)) :=
  match cfg.mesh_tally_2d with
  | Option.none => Except.ok ([], bbCache)
  | Option.some mt2 =>
    let res := cfg.mesh_2d_resolution
    match cfg.mesh_2d_corners with
    | Option.none =>
      match cachedBoundingBox cfg engine fe bbCache with
      | Except.error e => Except.error e
      | Except.ok (bb, bbCache2) =>
        Except.ok
          (mesh2dTallies mt2 (mesh2d_xz res bb) (mesh2d_xy res bb)
            (mesh2d_yz res bb), bbCache2)
    | Option.some c =>
      Except.ok
        (mesh2dTallies mt2
          (meshWithCorners 2 "2d_mesh_xz" [res.2, 1, res.1] c)
          (meshWithCorners 3 "2d_mesh_xy" [res.2, res.1, 1] c)
          (meshWithCorners 4 "2d_mesh_yz" [1, res.2, res.1] c), bbCache)

/-- NeutronicsModel._add_tally_for_every_material (lines 725-744): one tally
per material of self.openmc_materials except the DT_plasma pseudo-material,
named after the material tag and the suffix, with the Material filter first. -/
def addTallyForEveryMaterial (mats : List Material) (sfx : String)
    (score : String) (additional : List TFilter) : List Tally :=
  (mats.filter (fun m => m.name ≠ "DT_plasma")).map (fun m =>
    { name := m.name ++ "_" ++ sfx, scores := [score],
      filters := TFilter.materialF m :: additional })

/-- One iteration of the cell tally loop of export_xml (lines 646-713). -/
def cellTallyFor (photonTransport : Bool) (mats : List Material)
    (standard_tally : String) : List Tally :=
  if standard_tally = "TBR" then
    { name := "TBR", scores := ["(n,Xt)"], filters := [] }
      :: addTallyForEveryMaterial mats "TBR" "(n,Xt)" []
  else if standard_tally = "spectra" then
    addTallyForEveryMaterial mats "neutron_spectra" "flux"
      [TFilter.particleF ["neutron"],
       TFilter.energyF (EnergyBins.groupStructure "CCFE-709")]
    ++ (if photonTransport then
          addTallyForEveryMaterial mats "photon_spectra" "flux"
            [TFilter.particleF ["photon"],
             TFilter.energyF (EnergyBins.groupStructure "CCFE-709")]
        else [])
  else if standard_tally = "effective_dose" then
    addTallyForEveryMaterial mats "neutron_effective_dose" "flux"
      [TFilter.energyFunctionF (doseCoefficients "neutron" "ISO"),
       TFilter.particleF ["neutron"]]
    ++ (if photonTransport then
          addTallyForEveryMaterial mats "photon_effective_dose" "flux"
            [TFilter.energyFunctionF (doseCoefficients "photon" "ISO"),
             TFilter.particleF ["photon"]]
        else [])
  else
    addTallyForEveryMaterial mats standard_tally standard_tally []

/-- The cell tally section of export_xml (lines 644-713), iterating
self.cell_tallies in order. -/
def cellTallySection (photonTransport : Bool) (mats : List Material)
    (cts : List String) : List Tally :=
  List.foldr (fun s acc => cellTallyFor photonTransport mats s ++ acc) [] cts

/-- The per-call arguments of export_xml (lines 351-369). -/
structure ExportArgs where
  simulation_batches : Nat
  simulation_particles_per_batch : Nat
  source : Option Nat
  max_lost_particles : Nat
  mesh_tally_3d : Option (List String)
  mesh_tally_tet : Option (List String)
  mesh_tally_2d : Option (List String)
  cell_tallies : Option (List String)
  mesh_2d_resolution : Option (Nat × Nat)
  mesh_3d_resolution : Option (Nat × Nat × Nat)
  mesh_2d_corners : Option (Vec3 × Vec3)
  mesh_3d_corners : Option (Vec3 × Vec3)
deriving DecidableEq

/-- NeutronicsModel.export_xml (lines 351-723). Lines 426-443 default the
per-call overrides into locals, bound below with underscore names: the body
never reads them, every read is of the instance attributes. Line 468
reinitialises self.tallies to a fresh empty sequence before any descriptor
is accumulated. The tally sequence is accumulated in source order: tet
section, 3-D mesh section, 2-D mesh section, cell section. -/
def export_xml (st : NMState) (args : ExportArgs)
    (engine : String → Vec3 × Vec3) (fe : String → Bool) :
    Except PyErr NMState :=
  let cfg := st.cfg
  let _source := match args.source with
    | Option.none => cfg.source
    | Option.some s => s
  let _mesh_tally_3d := match args.mesh_tally_3d with
    | Option.none => cfg.mesh_tally_3d
    | Option.some v => Option.some v
  let _mesh_tally_tet := match args.mesh_tally_tet with
    | Option.none => cfg.mesh_tally_tet
    | Option.some v => Option.some v
  let _mesh_tally_2d := match args.mesh_tally_2d with
    | Option.none => cfg.mesh_tally_2d
    | Option.some v => Option.some v
  let _cell_tallies := match args.cell_tallies with
    | Option.none => cfg.cell_tallies
    | Option.some v => Option.some v
  let _mesh_2d_resolution := match args.mesh_2d_resolution with
    | Option.none => cfg.mesh_2d_resolution
    | Option.some v => v
  let _mesh_3d_resolution := match args.mesh_3d_resolution with
    | Option.none => cfg.mesh_3d_resolution
    | Option.some v => v
  let _mesh_2d_corners := match args.mesh_2d_corners with
    | Option.none => cfg.mesh_2d_corners
    | Option.some v => Option.some v
  let _mesh_3d_corners := match args.mesh_3d_corners with
    | Option.none => cfg.mesh_3d_corners
    | Option.some v => Option.some v
  let settings : SettingsS :=
    { batches := args.simulation_batches,
      inactive := 0,
      particles := args.simulation_particles_per_batch,
      run_mode := "fixed source",
      photon_transport := cfg.photon_transport,
      source := cfg.source,
      max_lost_particles :=
        if 0 < args.max_lost_particles then Option.some args.max_lost_particles
        else Option.none }
  match tetSection cfg with
  | Except.error e => Except.error e
  | Except.ok tet =>
    match mesh3dSection cfg st.bounding_box engine fe with
    | Except.error e => Except.error e
    | Except.ok (m3, bb1) =>
      match mesh2dSection cfg bb1 engine fe with
      | Except.error e => Except.error e
      | Except.ok (m2, bb2) =>
        let cell : List Tally :=
          match cfg.cell_tallies with
          | Option.none => []
          | Option.some cts =>
            cellTallySection cfg.photon_transport cfg.materials cts
        let allTallies := tet ++ m3 ++ m2 ++ cell
        Except.ok
          { cfg := cfg,
            tallies := Option.some allTallies,
            bounding_box := bb2,
            model := Option.some
              { geom := cfg.h5m_filename, mats := cfg.materials,
                settings := settings, tallies := allTallies } }

/-- Reconstruction of a NeutronicsModel over an existing instance:
NeutronicsModel.__init__ (lines 104-128) assigns every attribute, resets
self.tallies and self.model to None and sets self.bounding_box from its
argument, so nothing of the previous instance state survives. -/
def applyConfig (_s : NMState) (cfg : NMConfig) : NMState :=
  { cfg := cfg, tallies := Option.none, model := Option.none,
    bounding_box := cfg.bounding_box }

/-- One assembly of a configuration: construct the instance, then run
export_xml. -/
def assemble (s : NMState) (cfg : NMConfig) (args : ExportArgs)
    (engine : String → Vec3 × Vec3) (fe : String → Bool) :
    Except PyErr NMState :=
  export_xml (applyConfig s cfg) args engine fe

/- ===== decidability and concrete inputs ===== -/

instance {ε α : Type} [DecidableEq ε] [DecidableEq α] :
    DecidableEq (Except ε α) := fun a b =>
  match a, b with
  | Except.error e1, Except.error e2 =>
    if h : e1 = e2 then Decidable.isTrue (by rw [h])
    else Decidable.isFalse (by intro hc; cases hc; exact h rfl)
  | Except.error _, Except.ok _ => Decidable.isFalse (by intro hc; cases hc)
  | Except.ok _, Except.error _ => Decidable.isFalse (by intro hc; cases hc)
  | Except.ok a1, Except.ok a2 =>
    if h : a1 = a2 then Decidable.isTrue (by rw [h])
    else Decidable.isFalse (by intro hc; cases hc; exact h rfl)

/-- A two-material catalog with the reserved source-only pseudo-material. -/
def matsA : List Material :=
  [{ name := "mat1", mid := 1 }, { name := "DT_plasma", mid := 2 }]

/-- A concrete configuration requesting one TBR cell tally. -/
def cfgA : NMConfig :=
  { h5m_filename := "dagmc.h5m", source := 0, materials := matsA,
    cell_tallies := Option.some ["TBR"], tet_mesh_filename := Option.none,
    mesh_tally_2d := Option.none, mesh_tally_3d := Option.none,
    mesh_tally_tet := Option.none, mesh_2d_resolution := (400, 400),
    mesh_3d_resolution := (100, 100, 100), mesh_2d_corners := Option.none,
    mesh_3d_corners := Option.none, photon_transport := true,
    bounding_box := Option.none }

/-- The same configuration requesting a heating cell tally instead. -/
def cfgB : NMConfig := { cfgA with cell_tallies := Option.some ["heating"] }

/-- The same configuration with one cell tally type listed twice. -/
def cfgDup : NMConfig :=
  { cfgA with cell_tallies := Option.some ["heating", "heating"] }

/-- Minimal export_xml call arguments with no overrides. -/
def argsA : ExportArgs :=
  { simulation_batches := 2, simulation_particles_per_batch := 10,
    source := Option.none, max_lost_particles := 0,
    mesh_tally_3d := Option.none, mesh_tally_tet := Option.none,
    mesh_tally_2d := Option.none, cell_tallies := Option.none,
    mesh_2d_resolution := Option.none, mesh_3d_resolution := Option.none,
    mesh_2d_corners := Option.none, mesh_3d_corners := Option.none }

/-- Call arguments that explicitly pass several per-call overrides. -/
def argsC : ExportArgs :=
  { argsA with
    source := Option.some 7,
    cell_tallies := Option.some ["flux"],
    mesh_tally_2d := Option.some ["heating"],
    mesh_2d_resolution := Option.some (10, 10),
    mesh_2d_corners := Option.some ((0, 0, 0), (1, 1, 1)) }

/-- A concrete bounding-box engine. -/
def engineA : String → Vec3 × Vec3 := fun _ => ((0, 0, 0), (1, 2, 3))

/-- A filesystem on which every file exists. -/
def feA : String → Bool := fun _ => true

/-- A filesystem on which no file exists. -/
def feMissing : String → Bool := fun _ => false

/-- A freshly constructed instance holding cfgA. -/
def stateA : NMState :=
  { cfg := cfgA, tallies := Option.none, bounding_box := Option.none,
    model := Option.none }

/-- The settings produced by export_xml for argsA over cfgA. -/
def settingsA : SettingsS :=
  { batches := 2, inactive := 0, particles := 10, run_mode := "fixed source",
    photon_transport := true, source := 0,
    max_lost_particles := Option.none }

/-- The tally sequence assembled for cfgA. -/
def talliesTBR : List Tally := cellTallySection true matsA ["TBR"]

/-- The instance state after assembling cfgA with argsA. -/
def stateA1 : NMState :=
  { cfg := cfgA, tallies := Option.some talliesTBR,
    bounding_box := Option.none,
    model := Option.some
      { geom := "dagmc.h5m", mats := matsA, settings := settingsA,
        tallies := talliesTBR } }

/- ===== helper lemmas ===== -/

theorem pyEndsWith_h5m_not_exo (s : String) (h : pyEndsWith s ".h5m" = true) :
    pyEndsWith s ".exo" = false := by
  unfold pyEndsWith at h ⊢
  rw [List.isSuffixOf_iff_suffix] at h
  by_contra hx
  rw [Bool.not_eq_false, List.isSuffixOf_iff_suffix] at hx
  obtain ⟨t1, ht1⟩ := h
  obtain ⟨t2, ht2⟩ := hx
  have hlen : t1.length = t2.length := by
    have h1 := congrArg List.length ht1
    have h2 := congrArg List.length ht2
    rw [List.length_append] at h1 h2
    have e1 : (String.data ".h5m").length = 4 := rfl
    have e2 : (String.data ".exo").length = 4 := rfl
    rw [e1] at h1
    rw [e2] at h2
    omega
  have heq : String.data ".h5m" = String.data ".exo" :=
    List.append_inj_right (ht1.trans ht2.symm) hlen
  exact absurd heq (by decide)

theorem lastMatch_foldl_id (nm : String) (mats : List Material)
    (acc : Option Material) (h : ∀ m ∈ mats, m.name ≠ nm) :
    List.foldl (fun a m => if m.name = nm then Option.some m else a) acc mats
      = acc := by
  induction mats generalizing acc with
  | nil => rfl
  | cons m ms ih =>
    rw [List.foldl_cons, if_neg (h m (List.mem_cons_self m ms))]
    exact ih acc (fun x hx => h x (List.mem_cons_of_mem m hx))

theorem lastMatch_eq_none (nm : String) (mats : List Material)
    (h : ∀ m ∈ mats, m.name ≠ nm) : lastMatch nm mats = Option.none :=
  lastMatch_foldl_id nm mats Option.none h

theorem mem_addTallyForEveryMaterial {mats : List Material}
    {sfx score : String} {additional : List TFilter} {tl : Tally}
    (h : tl ∈ addTallyForEveryMaterial mats sfx score additional) :
    ∃ m, m.name ≠ "DT_plasma"
      ∧ tl = { name := m.name ++ "_" ++ sfx, scores := [score],
               filters := TFilter.materialF m :: additional } := by
  unfold addTallyForEveryMaterial at h
  obtain ⟨m, hm, rfl⟩ := List.mem_map.mp h
  refine ⟨m, ?_, rfl⟩
  have := List.mem_filter.mp hm
  simpa using this.2

/- ===== claim theorems ===== -/

/-- C1: the claimed name synthesis never happens. CellTally.__init__ stores
the target under the misspelled attribute `targer`, so set_name's read of
`self.target` raises an AttributeError for every target (2, None and
"tungsten" alike) and no descriptor is produced; the set_name logic itself,
evaluated with the target attribute present, would produce exactly the
claimed names "2_TBR", "TBR" and "tungsten_TBR". -/
theorem c1_compile_name_synthesis_crashes :
    cellTallyInit "TBR" (PyVal.int 2) Option.none
      = Except.error (PyErr.attributeError "target")
    ∧ cellTallyInit "TBR" PyVal.none Option.none
      = Except.error (PyErr.attributeError "target")
    ∧ cellTallyInit "TBR" (PyVal.str "tungsten")
        (Option.some [{ name := "tungsten", mid := 1 }])
      = Except.error (PyErr.attributeError "target")
    ∧ set_name { odw_score := "TBR", targer := PyVal.int 2,
                 materials := Option.none,
                 target := Option.some (PyVal.int 2) }
      = Except.ok "2_TBR"
    ∧ set_name { odw_score := "TBR", targer := PyVal.none,
                 materials := Option.none,
                 target := Option.some PyVal.none }
      = Except.ok "TBR"
    ∧ set_name { odw_score := "TBR", targer := PyVal.str "tungsten",
                 materials := Option.none,
                 target := Option.some (PyVal.str "tungsten") }
      = Except.ok "tungsten_TBR" :=
  ⟨rfl, rfl, rfl, rfl, rfl, rfl⟩

/-- C2: compiling photon_effective_dose produces no descriptor (the
constructor raises an AttributeError from the targer typo), and the
photon_effective_dose branch of set_filter builds its energy-function
filter from the neutron dose-coefficient table, not the photon one as
claimed; only the filter order (particle filter, then energy-function
filter) matches the claim. -/
theorem c2_photon_dose_uses_neutron_table :
    cellTallyInit "photon_effective_dose" (PyVal.int 1) Option.none
      = Except.error (PyErr.attributeError "target")
    ∧ additionalFilters "photon_effective_dose"
      = [TFilter.particleF ["photon"],
         TFilter.energyFunctionF (doseCoefficients "neutron" "ISO")]
    ∧ doseCoefficients "neutron" "ISO" ≠ doseCoefficients "photon" "ISO" :=
  ⟨rfl, rfl, by decide⟩

/-- C3 (counterexample): with one material mat1 the requested cell tally
type heating yields the single per-material descriptor mat1_heating carrying
a Material filter, not a whole-geometry descriptor; and spectra yields no
whole-geometry (filterless) descriptor at all. -/
theorem c3_counterexample :
    cellTallySection true [{ name := "mat1", mid := 1 }] ["heating"]
      = [{ name := "mat1_heating", scores := ["heating"],
           filters := [TFilter.materialF { name := "mat1", mid := 1 }] }]
    ∧ (∀ tl ∈ cellTallySection true [{ name := "mat1", mid := 1 }] ["heating"],
        tl.filters ≠ [])
    ∧ (∀ tl ∈ cellTallySection true [{ name := "mat1", mid := 1 }] ["spectra"],
        tl.filters ≠ []) := by
  decide

/-- C3 (amended): TBR yields the whole-geometry descriptor named TBR plus
the per-material expansion excluding DT_plasma; every cell tally type other
than TBR, spectra and effective_dose yields the per-material expansion only
(one descriptor per non-DT_plasma material, no whole-geometry descriptor);
spectra and effective_dose also yield per-material descriptors only, each
carrying a Material filter in first position. -/
theorem c3_cell_tally_expansion (pt : Bool) (mats : List Material)
    (t : String) (h1 : t ≠ "TBR") (h2 : t ≠ "spectra")
    (h3 : t ≠ "effective_dose") :
    cellTallySection pt mats ["TBR"]
      = { name := "TBR", scores := ["(n,Xt)"], filters := [] }
          :: addTallyForEveryMaterial mats "TBR" "(n,Xt)" []
    ∧ cellTallySection pt mats [t]
      = (mats.filter (fun m => m.name ≠ "DT_plasma")).map (fun m =>
          { name := m.name ++ "_" ++ t, scores := [t],
            filters := [TFilter.materialF m] })
    ∧ (∀ tl ∈ cellTallySection pt mats ["spectra"],
        ∃ m, m.name ≠ "DT_plasma"
          ∧ tl.filters.head? = Option.some (TFilter.materialF m))
    ∧ (∀ tl ∈ cellTallySection pt mats ["effective_dose"],
        ∃ m, m.name ≠ "DT_plasma"
          ∧ tl.filters.head? = Option.some (TFilter.materialF m)) := by
  refine ⟨?_, ?_, ?_, ?_⟩
  · simp [cellTallySection, cellTallyFor]
  · simp [cellTallySection, cellTallyFor, h1, h2, h3, addTallyForEveryMaterial]
  · intro tl htl
    have hs : cellTallySection pt mats ["spectra"]
        = cellTallyFor pt mats "spectra" := by
      simp [cellTallySection]
    rw [hs] at htl
    unfold cellTallyFor at htl
    rw [if_neg (by decide), if_pos rfl] at htl
    rcases List.mem_append.mp htl with hmem | hmem
    · obtain ⟨m, hm, rfl⟩ := mem_addTallyForEveryMaterial hmem
      exact ⟨m, hm, rfl⟩
    · cases pt with
      | false => simp at hmem
      | true =>
        simp only [if_pos] at hmem
        obtain ⟨m, hm, rfl⟩ := mem_addTallyForEveryMaterial hmem
        exact ⟨m, hm, rfl⟩
  · intro tl htl
    have hs : cellTallySection pt mats ["effective_dose"]
        = cellTallyFor pt mats "effective_dose" := by
      simp [cellTallySection]
    rw [hs] at htl
    unfold cellTallyFor at htl
    rw [if_neg (by decide), if_neg (by decide), if_pos rfl] at htl
    rcases List.mem_append.mp htl with hmem | hmem
    · obtain ⟨m, hm, rfl⟩ := mem_addTallyForEveryMaterial hmem
      exact ⟨m, hm, rfl⟩
    · cases pt with
      | false => simp at hmem
      | true =>
        simp only [if_pos] at hmem
        obtain ⟨m, hm, rfl⟩ := mem_addTallyForEveryMaterial hmem
        exact ⟨m, hm, rfl⟩

/-- C3 (witness): the amended statement instantiated at photon transport on,
the two-material catalog with DT_plasma, and the heating tally type. -/
theorem c3_expansion_witness :
    cellTallySection true matsA ["TBR"]
      = { name := "TBR", scores := ["(n,Xt)"], filters := [] }
          :: addTallyForEveryMaterial matsA "TBR" "(n,Xt)" []
    ∧ cellTallySection true matsA ["heating"]
      = (matsA.filter (fun m => m.name ≠ "DT_plasma")).map (fun m =>
          { name := m.name ++ "_" ++ "heating", scores := ["heating"],
            filters := [TFilter.materialF m] })
    ∧ (∀ tl ∈ cellTallySection true matsA ["spectra"],
        ∃ m, m.name ≠ "DT_plasma"
          ∧ tl.filters.head? = Option.some (TFilter.materialF m))
    ∧ (∀ tl ∈ cellTallySection true matsA ["effective_dose"],
        ∃ m, m.name ≠ "DT_plasma"
          ∧ tl.filters.head? = Option.some (TFilter.materialF m)) :=
  c3_cell_tally_expansion true matsA "heating" (by decide) (by decide)
    (by decide)

/-- C4: the file-existence guard of find_bounding_box never fires. Line 310
tests the truthiness of the bound method object Path(...).is_file instead
of calling it, so for a geometry file that does not exist the
FileNotFoundError is not raised and the external engine is invoked anyway,
returning its bounding box. -/
theorem c4_missing_file_reaches_engine (engine : String → Vec3 × Vec3)
    (fe : String → Bool) (cfg : NMConfig)
    (h : fe cfg.h5m_filename = false) :
    find_bounding_box engine fe cfg = Except.ok (engine cfg.h5m_filename)
    ∧ ∀ msg, find_bounding_box engine fe cfg
        ≠ Except.error (PyErr.fileNotFoundError msg) := by
  constructor
  · rfl
  · intro msg hcontra
    simp [find_bounding_box, isFileMethodTruthy] at hcontra

/-- C4 (witness): the guard theorem applied to a filesystem on which no
file exists. -/
theorem c4_missing_file_witness :
    find_bounding_box engineA feMissing cfgA
      = Except.ok (engineA cfgA.h5m_filename)
    ∧ ∀ msg, find_bounding_box engineA feMissing cfgA
        ≠ Except.error (PyErr.fileNotFoundError msg) :=
  c4_missing_file_reaches_engine engineA feMissing cfgA rfl

/-- C5 (counterexample): compiling with string target "zzz" that matches no
material fails with an AttributeError (an incidental unbound-attribute
failure from the targer typo), which is not one of the documented
ValidationError / TypeKindError / NotFoundError kinds the claim requires. -/
theorem c5_counterexample :
    cellTallyInit "heating" (PyVal.str "zzz")
        (Option.some [{ name := "steel", mid := 1 }])
      = Except.error (PyErr.attributeError "target")
    ∧ isDocumentedFailure (PyErr.attributeError "target") = false :=
  ⟨rfl, rfl⟩

/-- C5 (amended): for every string target matching no material name,
compile does fail and no descriptor is produced, but with incidental
errors rather than a documented not-found or validation error: construction
raises an AttributeError reading the misspelled target attribute, and even
with that attribute repaired, set_filter raises an UnboundLocalError at the
read of tally_filter because the lookup loop assigned nothing. -/
theorem c5_unmatched_target_incidental (score nm : String)
    (mats : List Material) (h : ∀ m ∈ mats, m.name ≠ nm) :
    cellTallyInit score (PyVal.str nm) (Option.some mats)
      = Except.error (PyErr.attributeError "target")
    ∧ set_filter { odw_score := score, targer := PyVal.str nm,
                   materials := Option.some mats,
                   target := Option.some (PyVal.str nm) }
      = Except.error (PyErr.unboundLocalError "tally_filter") := by
  constructor
  · rfl
  · simp [set_filter, getTarget, lastMatch_eq_none nm mats h]

/-- C5 (witness): the amended statement at score heating, target "zzz" and
a one-material catalog containing only steel. -/
theorem c5_unmatched_target_witness :
    cellTallyInit "heating" (PyVal.str "zzz")
        (Option.some [{ name := "steel", mid := 1 }])
      = Except.error (PyErr.attributeError "target")
    ∧ set_filter { odw_score := "heating", targer := PyVal.str "zzz",
                   materials := Option.some [{ name := "steel", mid := 1 }],
                   target := Option.some (PyVal.str "zzz") }
      = Except.error (PyErr.unboundLocalError "tally_filter") :=
  c5_unmatched_target_incidental "heating" "zzz" [{ name := "steel", mid := 1 }]
    (by decide)

/-- C6 (counterexample): the configuration listing heating twice passes the
cell_tallies setter validation, and the assembled tally sequence contains
two descriptors both named mat1_heating: the duplicate is silently
accumulated, not rejected. -/
theorem c6_counterexample :
    cell_tallies_valid [] cfgDup.cell_tallies = true
    ∧ Except.map (fun st => (Option.getD st.tallies []).map (fun tl => tl.name))
        (export_xml (applyConfig stateA cfgDup) argsA engineA feA)
      = Except.ok ["mat1_heating", "mat1_heating"]
    ∧ ¬ (["mat1_heating", "mat1_heating"] : List String).Nodup := by
  refine ⟨by decide, rfl, by decide⟩

/-- C6 (amended): name uniqueness is not enforced at assembly time. The
cell-tally accumulator appends descriptors unconditionally: the sequence
built for a request list split as l1 followed by l2 is the verbatim
concatenation of the sequences built for l1 and for l2, so a cell tally
type listed twice yields its descriptors (names included) twice. -/
theorem c6_no_uniqueness_enforcement (pt : Bool) (mats : List Material)
    (l1 l2 : List String) :
    cellTallySection pt mats (l1 ++ l2)
      = cellTallySection pt mats l1 ++ cellTallySection pt mats l2 := by
  unfold cellTallySection
  induction l1 with
  | nil => rfl
  | cons s ls ih => simp [ih, List.append_assoc]

/-- C7: in the no-corner branch each plane mesh has dimension 1 along its
perpendicular axis and the supplied (height, width) resolution along its
two in-plane axes (width on the first in-plane axis, height on the second);
the in-plane bounds equal the bounding-box extents on those axes and the
perpendicular-axis bounds are exactly (-1, 1); in particular for bounding
box ((0,0,0),(1,2,3)) the xz mesh has x bounds (0,1), z bounds (0,3) and
y bounds (-1,1). -/
theorem c7_mesh2d_plane_geometry (res : Nat × Nat) (bb : Vec3 × Vec3) :
    ((mesh2d_xz res bb).dimension = [res.2, 1, res.1]
      ∧ (mesh2d_xz res bb).lower_left = [bb.1.1, -1, bb.1.2.2]
      ∧ (mesh2d_xz res bb).upper_right = [bb.2.1, 1, bb.2.2.2])
    ∧ ((mesh2d_xy res bb).dimension = [res.2, res.1, 1]
      ∧ (mesh2d_xy res bb).lower_left = [bb.1.1, bb.1.2.1, -1]
      ∧ (mesh2d_xy res bb).upper_right = [bb.2.1, bb.2.2.1, 1])
    ∧ ((mesh2d_yz res bb).dimension = [1, res.2, res.1]
      ∧ (mesh2d_yz res bb).lower_left = [-1, bb.1.2.1, bb.1.2.2]
      ∧ (mesh2d_yz res bb).upper_right = [1, bb.2.2.1, bb.2.2.2])
    ∧ (mesh2d_xz res ((0, 0, 0), (1, 2, 3))).lower_left = [0, -1, 0]
    ∧ (mesh2d_xz res ((0, 0, 0), (1, 2, 3))).upper_right = [1, 1, 3] :=
  ⟨⟨rfl, rfl, rfl⟩, ⟨rfl, rfl, rfl⟩, ⟨rfl, rfl, rfl⟩, rfl, rfl⟩

/-- C8: build_tet succeeds on .h5m filenames with backend tag moab, on .exo
filenames with the distinct backend tag libmesh, and on any filename with
neither extension it raises ValueError and no mesh descriptor or tally is
produced. -/
theorem c8_build_tet_backends (f1 f2 f3 : String)
    (h1 : pyEndsWith f1 ".h5m" = true)
    (h2 : pyEndsWith f2 ".exo" = true)
    (h3 : pyEndsWith f3 ".h5m" = false)
    (h4 : pyEndsWith f3 ".exo" = false) :
    create_unstructured_mesh f1
      = Except.ok { filename := f1, library := "moab" }
    ∧ create_unstructured_mesh f2
      = Except.ok { filename := f2, library := "libmesh" }
    ∧ ("moab" : String) ≠ "libmesh"
    ∧ create_unstructured_mesh f3 = Except.error (PyErr.valueError
        "only h5m or exo files are accepted as valid filename values")
    ∧ tetMeshTallyInit "heating" f3 = Except.error (PyErr.valueError
        "only h5m or exo files are accepted as valid filename values") := by
  have hx : pyEndsWith f1 ".exo" = false := pyEndsWith_h5m_not_exo f1 h1
  refine ⟨?_, ?_, by decide, ?_, ?_⟩
  · simp [create_unstructured_mesh, hx, h1]
  · simp [create_unstructured_mesh, h2]
  · simp [create_unstructured_mesh, h3, h4]
  · simp [tetMeshTallyInit, create_unstructured_mesh, h3, h4]

/-- C8 (witness): the backend theorem at model.h5m, model.exo and
model.txt. -/
theorem c8_build_tet_witness :
    create_unstructured_mesh "model.h5m"
      = Except.ok { filename := "model.h5m", library := "moab" }
    ∧ create_unstructured_mesh "model.exo"
      = Except.ok { filename := "model.exo", library := "libmesh" }
    ∧ ("moab" : String) ≠ "libmesh"
    ∧ create_unstructured_mesh "model.txt" = Except.error (PyErr.valueError
        "only h5m or exo files are accepted as valid filename values")
    ∧ tetMeshTallyInit "heating" "model.txt" = Except.error (PyErr.valueError
        "only h5m or exo files are accepted as valid filename values") :=
  c8_build_tet_backends "model.h5m" "model.exo" "model.txt" rfl rfl rfl rfl

/-- C9: assembling one configuration and then a second yields exactly the
tally sequence of assembling the second alone, for any fresh starting
state: the constructor reassigns every attribute and export_xml rebuilds
self.tallies from scratch (line 468), so no descriptor of the first
assembly survives; moreover export_xml is insensitive to whatever tally
sequence the instance already held. -/
theorem c9_reassembly_no_residue (s s0 : NMState) (cfg1 cfg2 : NMConfig)
    (args1 args2 : ExportArgs) (engine : String → Vec3 × Vec3)
    (fe : String → Bool) (st1 : NMState)
    (h : assemble s cfg1 args1 engine fe = Except.ok st1) :
    Except.map (fun st => st.tallies) (assemble st1 cfg2 args2 engine fe)
      = Except.map (fun st => st.tallies) (assemble s0 cfg2 args2 engine fe)
    ∧ ∀ junk, export_xml { st1 with tallies := junk } args2 engine fe
        = export_xml { st1 with tallies := Option.none } args2 engine fe := by
  exact ⟨rfl, fun junk => rfl⟩

/-- C9 (witness): assembling cfgA and then cfgB from the resulting state
matches assembling cfgB from a fresh instance. -/
theorem c9_reassembly_witness :
    Except.map (fun st => st.tallies) (assemble stateA1 cfgB argsA engineA feA)
      = Except.map (fun st => st.tallies) (assemble stateA cfgB argsA engineA feA)
    ∧ ∀ junk, export_xml { stateA1 with tallies := junk } argsA engineA feA
        = export_xml { stateA1 with tallies := Option.none } argsA engineA feA :=
  c9_reassembly_no_residue stateA stateA cfgA cfgB argsA argsA engineA feA
    stateA1 rfl

/-- C10: two export_xml calls on the same instance that agree on
simulation_batches, simulation_particles_per_batch and max_lost_particles
but differ arbitrarily in the explicitly passed source, cell_tallies,
mesh_tally_2d, mesh_tally_3d, mesh_tally_tet, resolution and corner
override arguments produce identical results (tally sequence, settings and
model alike): the body reads only the instance attributes, so the override
parameters are dead. -/
theorem c10_call_overrides_ignored (st : NMState) (args1 args2 : ExportArgs)
    (engine : String → Vec3 × Vec3) (fe : String → Bool)
    (hb : args1.simulation_batches = args2.simulation_batches)
    (hp : args1.simulation_particles_per_batch
      = args2.simulation_particles_per_batch)
    (hm : args1.max_lost_particles = args2.max_lost_particles) :
    export_xml st args1 engine fe = export_xml st args2 engine fe := by
  simp only [export_xml]
  rw [hb, hp, hm]

/-- C10 (witness): argsC passes explicit source, cell_tallies,
mesh_tally_2d, resolution and corner overrides and argsA passes none, yet
the exports coincide. -/
theorem c10_call_overrides_witness :
    export_xml stateA argsC engineA feA = export_xml stateA argsA engineA feA :=
  c10_call_overrides_ignored stateA argsC argsA engineA feA rfl rfl rfl
